import Mathlib

/-!
Verification of the Maijjd backend request-handling pipeline.

This file gives a shallow embedding of the parts of the Express server
(`server.js`, routes/services.js) that the specification talks about:
JavaScript truthiness for optional header/body values, `parseInt`,
`toLowerCase` (ASCII fragment), the two `express-rate-limit` limiters
and their `skip` predicates, the request-id middleware, the services
catalog routes, the AI software-analysis endpoint validation, and the
terminal error-handling middleware.  Machine numbers are modelled as
`Nat`/`Int`; absent JavaScript values (`undefined`) as `none`.
-/

/-- JavaScript truthiness of an optional string value: `undefined` and the
empty string are falsy, every other string is truthy. -/
def truthy (o : Option String) : Bool :=
  match o with
  | some v => !(v == "")
  | none => false

/-- JavaScript `a || b` for an optional string `a` with default `b`:
the default is used when `a` is `undefined` or the empty string. -/
def jsOrStr (o : Option String) (d : String) : String :=
  match o with
  | some v => if v == "" then d else v
  | none => d

/-- ASCII lower-casing of one character, the fragment of JavaScript
`toLowerCase` exercised by the category keys. -/
def lowerChar (ch : Char) : Char :=
  if 65 ≤ ch.toNat && ch.toNat ≤ 90 then Char.ofNat (ch.toNat + 32) else ch

/-- ASCII model of JavaScript `String.prototype.toLowerCase`. -/
def toLowerAscii (s : String) : String :=
  String.mk (s.data.map lowerChar)

/-- Whether the first list is an initial segment of the second. -/
def leadEq : List Char → List Char → Bool
  | [], _ => true
  | _ :: _, [] => false
  | a :: as, b :: bs => a == b && leadEq as bs

/-- JavaScript `String.prototype.includes`: whether `pat` occurs as a
contiguous substring of the second argument. -/
def hasSub (pat : List Char) : List Char → Bool
  | [] => pat.isEmpty
  | c :: rest => leadEq pat (c :: rest) || hasSub pat rest

/-- Value of a decimal or hexadecimal digit character, checked against the
radix, as used by JavaScript `parseInt`. -/
def digitVal (ch : Char) (radix : Nat) : Option Nat :=
  let n := ch.toNat
  let v :=
    if 48 ≤ n && n ≤ 57 then some (n - 48)
    else if 97 ≤ n && n ≤ 122 then some (n - 87)
    else if 65 ≤ n && n ≤ 90 then some (n - 55)
    else none
  match v with
  | some d => if d < radix then some d else none
  | none => none

/-- Accumulate leading digits in the given radix; stops at the first
non-digit, `none` when no digit at all was consumed. -/
def parseDigits (radix : Nat) : List Char → Option Nat → Option Nat
  | [], acc => acc
  | c :: rest, acc =>
    match digitVal c radix with
    | some d => parseDigits radix rest (some ((acc.getD 0) * radix + d))
    | none => acc

/-- ASCII whitespace skipped by JavaScript `parseInt`. -/
def isJsSpace (ch : Char) : Bool :=
  ch == ' ' || ch == '\t' || ch == '\n' || ch == '\r' ||
    ch.toNat == 11 || ch.toNat == 12

/-- JavaScript `parseInt(s)` with no explicit radix: skip leading
whitespace, an optional sign, an optional `0x`/`0X` hexadecimal prefix,
then consume leading digits; `none` models the `NaN` result. -/
def parseIntJS (s : String) : Option Int :=
  let cs := s.data.dropWhile isJsSpace
  let sign : Int := match cs with
    | '-' :: _ => -1
    | _ => 1
  let cs1 := match cs with
    | '-' :: rest => rest
    | '+' :: rest => rest
    | _ => cs
  let radix : Nat := match cs1 with
    | '0' :: 'x' :: _ => 16
    | '0' :: 'X' :: _ => 16
    | _ => 10
  let cs2 := match cs1 with
    | '0' :: 'x' :: rest => rest
    | '0' :: 'X' :: rest => rest
    | _ => cs1
  match parseDigits radix cs2 none with
  | some n => some (sign * (n : Int))
  | none => none

/-- Digit character of base-36 printing (`0`-`9` then `a`-`z`), as used by
JavaScript `Number.prototype.toString(36)`. -/
def base36Digit (d : Nat) : Char :=
  if d < 10 then Char.ofNat (48 + d) else Char.ofNat (87 + d)

/-- Base-36 digits of a natural number, most significant first, prepended
to the accumulator; the first argument is structural fuel (any fuel at
least the number itself is enough, since the value shrinks by a factor
of 36 each step). -/
def toBase36Go : Nat → Nat → List Char → List Char
  | 0, _, acc => acc
  | fuel + 1, n, acc =>
    if n = 0 then acc
    else toBase36Go fuel (n / 36) (base36Digit (n % 36) :: acc)

/-- JavaScript `n.toString(36)` for a natural number `n` (the server feeds
it `Date.now()`). -/
def toBase36 (n : Nat) : String :=
  if n = 0 then "0" else String.mk (toBase36Go n n [])

/-- Model of `generateRequestId`: the random part
(`Math.random().toString(36).substr(2, 9)`) is abstracted as the
parameter `randPart`, `now` models `Date.now()`; the function returns
`randPart + '-' + now.toString(36)`. -/
def generateRequestId (randPart : String) (now : Nat) : String :=
  randPart ++ "-" ++ toBase36 now

/-- Request-logging middleware assignment
`req.requestId = req.headers['x-request-id'] || generateRequestId()`:
a missing or empty inbound header falls back to a generated id. -/
def requestIdOf (hdr : Option String) (randPart : String) (now : Nat) : String :=
  match hdr with
  | some v => if v == "" then generateRequestId randPart now else v
  | none => generateRequestId randPart now

/-- Response headers set unconditionally by the metadata middleware,
including the echo of the request identifier. -/
def globalHeaders (requestId : String) : List (String × String) :=
  [("X-API-Version", "2.0.0"),
   ("X-API-Platform", "Maijjd-Intelligent-System"),
   ("X-Content-Type-Options", "nosniff"),
   ("X-Frame-Options", "DENY"),
   ("X-XSS-Protection", "1; mode=block"),
   ("X-Request-ID", requestId),
   ("X-AI-Compatible", "true"),
   ("X-Data-Format", "JSON"),
   ("X-Response-Schema", "https://api.maijjd.com/schemas")]

/-- The slice of an inbound HTTP request consulted by the rate limiters. -/
structure Request where
  path : String
  userAgent : Option String
  xAiPlatform : Option String

/-- Platform substrings recognized by the AI limiter's `skip` predicate. -/
def aiPlatforms : List String :=
  ["openai.com", "anthropic.com", "google.com", "microsoft.com"]

/-- The `skip` predicate of the AI limiter: some known platform substring
occurs in the user-agent header, or an `x-ai-platform` header is truthy. -/
def isAIPlatform (req : Request) : Bool :=
  aiPlatforms.any (fun p =>
    (match req.userAgent with
     | some ua => hasSub p.data ua.data
     | none => false) || truthy req.xAiPlatform)

/-- Configuration of one `express-rate-limit` limiter together with the
mount path it is applied to by `app.use`. -/
structure Limiter where
  windowMs : Nat
  maxReq : Nat
  mount : String
  errorCode : String
  skip : Request → Bool

/-- The AI-platform limiter: higher ceiling, mounted at `/api/ai`, and
configured to skip requests identified as AI-platform traffic. -/
def aiLimiter : Limiter :=
  { windowMs := 15 * 60 * 1000
    maxReq := 2000
    mount := "/api/ai"
    errorCode := "AI_RATE_LIMIT_EXCEEDED"
    skip := isAIPlatform }

/-- The standard limiter: lower ceiling, mounted at `/api`, with no `skip`
predicate configured (`express-rate-limit` default: skip nothing). -/
def standardLimiter : Limiter :=
  { windowMs := 15 * 60 * 1000
    maxReq := 1000
    mount := "/api"
    errorCode := "RATE_LIMIT_EXCEEDED"
    skip := fun _ => false }

/-- Express mount-path matching: the request path equals the mount point
or extends it at a segment boundary. -/
def mountMatches (mount p : String) : Bool :=
  p == mount || leadEq (mount ++ "/").data p.data

/-- Whether a limiter counts (and may reject) a request: the request path
is under the limiter's mount and the `skip` predicate does not match. -/
def limiterCounts (l : Limiter) (req : Request) : Bool :=
  mountMatches l.mount req.path && !(l.skip req)

/-- One limiter step on the per-client window counter: a counted request
increments the counter and passes only while the ceiling is respected; a
skipped or unmounted request leaves the counter alone and passes. -/
def limiterStep (l : Limiter) (req : Request) (count : Nat) : Nat × Bool :=
  if limiterCounts l req then (count + 1, decide (count + 1 ≤ l.maxReq))
  else (count, true)

/-- An AI-tagged request to an AI endpoint, used to probe the limiters. -/
def aiTaggedRequest : Request :=
  { path := "/api/ai/software-analysis"
    userAgent := none
    xAiPlatform := some "claude" }

/-- One catalog entry of the services route (`routes/services.js`). -/
structure Service where
  id : Nat
  name : String
  description : String
  price : String
  category : String
  features : List String
  icon : String
  color : String
  deliveryTime : String
  technologies : List String

/-- The static catalog built by the `GET /api/services` handler. -/
def services : List Service :=
  [{ id := 1
     name := "Custom Software Development"
     description := "Tailored software solutions designed to meet your specific business requirements and workflows. We specialize in creating scalable, maintainable applications that drive business growth."
     price := "Starting from $5,000"
     category := "Development"
     features := ["Web Applications (React, Angular, Vue.js)",
       "Desktop Applications (Windows, macOS, Linux)",
       "Mobile Apps (iOS, Android, Cross-platform)",
       "API Development (REST, GraphQL, Microservices)",
       "System Integration & Legacy Modernization",
       "Cloud-Native Applications",
       "Progressive Web Apps (PWA)",
       "Real-time Applications",
       "E-commerce Solutions",
       "Enterprise Resource Planning (ERP)"]
     icon := "code"
     color := "blue"
     deliveryTime := "4-12 weeks"
     technologies := ["React", "Node.js", "Python", "Java", "C#", "Flutter", "React Native"] },
   { id := 2
     name := "Database Management & Analytics"
     description := "Comprehensive database solutions with advanced analytics, reporting, and data management capabilities. We help organizations unlock the full potential of their data."
     price := "Starting from $3,000"
     category := "Data"
     features := ["Database Design & Architecture",
       "Data Migration & ETL Processes",
       "Performance Optimization & Tuning",
       "Backup & Disaster Recovery",
       "Data Analytics & Business Intelligence",
       "Data Warehousing Solutions",
       "Real-time Data Processing",
       "Data Quality Management",
       "Compliance & Data Governance",
       "Machine Learning Integration"]
     icon := "database"
     color := "green"
     deliveryTime := "2-8 weeks"
     technologies := ["PostgreSQL", "MySQL", "MongoDB", "Redis", "Elasticsearch", "Apache Kafka"] },
   { id := 3
     name := "System Integration & API Development"
     description := "Seamless integration of existing systems and third-party applications for improved efficiency and data flow across your organization."
     price := "Starting from $4,000"
     category := "Integration"
     features := ["API Development & Management",
       "Legacy System Integration",
       "Cloud Integration (AWS, Azure, GCP)",
       "Workflow Automation & Orchestration",
       "Data Synchronization & Mapping",
       "Third-party Service Integration",
       "Webhook Implementation",
       "Message Queue Systems",
       "Real-time Data Streaming",
       "API Gateway & Security"]
     icon := "settings"
     color := "purple"
     deliveryTime := "3-10 weeks"
     technologies := ["Node.js", "Python", "Java", "Apache Kafka", "RabbitMQ", "Docker"] },
   { id := 4
     name := "User Management & Security Systems"
     description := "Comprehensive user management and access control systems for enhanced security, compliance, and user experience."
     price := "Starting from $2,500"
     category := "Security"
     features := ["User Authentication & Authorization",
       "Role-based Access Control (RBAC)",
       "Single Sign-On (SSO) & SAML",
       "Multi-factor Authentication (MFA)",
       "User Analytics & Behavior Tracking",
       "Security Auditing & Compliance",
       "Password Management & Policies",
       "Session Management",
       "API Security & Rate Limiting",
       "Data Privacy & GDPR Compliance"]
     icon := "users"
     color := "orange"
     deliveryTime := "2-6 weeks"
     technologies := ["JWT", "OAuth 2.0", "SAML", "LDAP", "Active Directory", "Redis"] },
   { id := 5
     name := "Advanced Analytics & Business Intelligence"
     description := "Advanced analytics and real-time reporting solutions for data-driven decision making and business growth."
     price := "Starting from $3,500"
     category := "Analytics"
     features := ["Business Intelligence Dashboards",
       "Real-time Data Visualization",
       "Custom Report Generation",
       "Advanced Data Analytics",
       "Predictive Analytics & Forecasting",
       "Machine Learning Models",
       "Data Mining & Pattern Recognition",
       "Performance Metrics & KPIs",
       "Interactive Charts & Graphs",
       "Automated Insights & Alerts"]
     icon := "bar-chart"
     color := "pink"
     deliveryTime := "3-8 weeks"
     technologies := ["Tableau", "Power BI", "Python", "R", "Apache Spark", "TensorFlow"] },
   { id := 6
     name := "Cybersecurity & Compliance Solutions"
     description := "Enterprise-grade security solutions with advanced threat detection, encryption, and compliance standards."
     price := "Starting from $4,500"
     category := "Security"
     features := ["Security Auditing & Assessment",
       "Penetration Testing & Vulnerability Scanning",
       "Compliance Management (SOC2, ISO27001)",
       "Data Encryption & Key Management",
       "Security Monitoring & Incident Response",
       "Threat Intelligence & Analysis",
       "Network Security & Firewall Management",
       "Endpoint Protection & Detection",
       "Security Awareness Training",
       "Risk Assessment & Management"]
     icon := "shield"
     color := "red"
     deliveryTime := "4-12 weeks"
     technologies := ["Wireshark", "Nmap", "Metasploit", "Snort", "OSSEC", "OpenVAS"] },
   { id := 7
     name := "Cloud Infrastructure & DevOps"
     description := "Cloud infrastructure setup, management, and DevOps automation for scalable, reliable applications."
     price := "Starting from $6,000"
     category := "Infrastructure"
     features := ["Cloud Architecture Design",
       "Infrastructure as Code (IaC)",
       "CI/CD Pipeline Automation",
       "Container Orchestration (Kubernetes)",
       "Monitoring & Logging Solutions",
       "Auto-scaling & Load Balancing",
       "Disaster Recovery & Backup",
       "Security & Compliance",
       "Cost Optimization",
       "Performance Tuning"]
     icon := "cloud"
     color := "indigo"
     deliveryTime := "6-16 weeks"
     technologies := ["AWS", "Azure", "GCP", "Docker", "Kubernetes", "Terraform", "Jenkins"] },
   { id := 8
     name := "AI & Machine Learning Solutions"
     description := "Custom AI and machine learning solutions to automate processes, gain insights, and create intelligent applications."
     price := "Starting from $8,000"
     category := "AI/ML"
     features := ["Custom AI Model Development",
       "Natural Language Processing (NLP)",
       "Computer Vision & Image Recognition",
       "Predictive Analytics & Forecasting",
       "Recommendation Systems",
       "Chatbot & Virtual Assistant Development",
       "Data Preprocessing & Feature Engineering",
       "Model Training & Optimization",
       "AI Integration & APIs",
       "Continuous Learning & Model Updates"]
     icon := "zap"
     color := "yellow"
     deliveryTime := "8-20 weeks"
     technologies := ["TensorFlow", "PyTorch", "Scikit-learn", "OpenAI", "Hugging Face", "Python"] },
   { id := 9
     name := "Mobile App Development"
     description := "Native and cross-platform mobile applications with modern UI/UX design and advanced features."
     price := "Starting from $7,000"
     category := "Mobile"
     features := ["Native iOS & Android Development",
       "Cross-platform Development (React Native, Flutter)",
       "Progressive Web Apps (PWA)",
       "Mobile App Testing & QA",
       "App Store Optimization (ASO)",
       "Push Notifications & Analytics",
       "Offline Functionality",
       "Social Media Integration",
       "Payment Gateway Integration",
       "App Maintenance & Updates"]
     icon := "smartphone"
     color := "teal"
     deliveryTime := "6-16 weeks"
     technologies := ["Swift", "Kotlin", "React Native", "Flutter", "Firebase", "AWS Amplify"] },
   { id := 10
     name := "E-commerce & Digital Commerce"
     description := "Complete e-commerce solutions with advanced features, payment processing, and customer management."
     price := "Starting from $9,000"
     category := "E-commerce"
     features := ["Custom E-commerce Platform Development",
       "Payment Gateway Integration",
       "Inventory Management Systems",
       "Customer Relationship Management",
       "Order Processing & Fulfillment",
       "Multi-store Management",
       "Mobile Commerce Solutions",
       "Analytics & Reporting",
       "Marketing & SEO Tools",
       "Security & PCI Compliance"]
     icon := "shopping-cart"
     color := "cyan"
     deliveryTime := "8-20 weeks"
     technologies := ["Shopify", "WooCommerce", "Magento", "Node.js", "React", "Stripe"] }]

/-- First-occurrence de-duplication, the behavior of the JavaScript
spread of a `Set` built from an array. -/
def jsSetDedup (l : List String) : List String :=
  l.foldl (fun acc x => if x ∈ acc then acc else acc ++ [x]) []

/-- Cache-control headers set by the `GET /api/services` handler before
responding (`now` models `Date.now()` used for the `ETag`). -/
def servicesCacheHeaders (now : Nat) : List (String × String) :=
  [("Cache-Control", "no-cache, no-store, must-revalidate, private"),
   ("Pragma", "no-cache"),
   ("Expires", "0"),
   ("ETag", "\"" ++ toString now ++ "\"")]

/-- Shape of the `GET /api/services` response: status, the headers set by
the handler itself, the body message and data, and the metadata fields. -/
structure ServicesListResponse where
  status : Nat
  headers : List (String × String)
  message : String
  data : List Service
  totalServices : Nat
  categories : List String
  timestamp : Nat
  requestId : String

/-- The `GET /api/services` handler: responds 200 with the full catalog,
`total_services` as the array length and `categories` as the spread of a
`Set` over the mapped categories; `now` models `Date.now()` and `rand`
the random suffix of the metadata `request_id`. -/
def getAllServices (now : Nat) (rand : String) : ServicesListResponse :=
  { status := 200
    headers := servicesCacheHeaders now
    message := "Services retrieved successfully"
    data := services
    totalServices := services.length
    categories := jsSetDedup (services.map (fun s => s.category))
    timestamp := now
    requestId := "svc_" ++ toString now ++ "_" ++ rand }

/-- One step of the mock process description in the get-by-id payload. -/
structure ProcessStep where
  step : Nat
  title : String
  description : String
deriving DecidableEq

/-- The synthetic service object built by `GET /api/services/:id`; its
`id` is `parseInt(id)` (`none` models `NaN`), every other field is a
literal constant. -/
structure ServiceDetail where
  id : Option Int
  name : String
  description : String
  price : String
  category : String
  features : List String
  process : List ProcessStep
  technologies : List String
  icon : String
  color : String
  createdAt : String
  updatedAt : String
deriving DecidableEq

/-- Shape of the `GET /api/services/:id` response. -/
structure ServiceDetailResponse where
  status : Nat
  headers : List (String × String)
  message : String
  data : ServiceDetail

/-- The `GET /api/services/:id` handler: always 200, with a mock service
whose `id` field is `parseInt` of the path segment; the handler sets no
response headers of its own and never reads the catalog array. -/
def getServiceById (id : String) : ServiceDetailResponse :=
  { status := 200
    headers := []
    message := "Service retrieved successfully"
    data :=
      { id := parseIntJS id
        name := "Custom Software Development"
        description := "Tailored software solutions designed to meet your specific business requirements and workflows. Our experienced development team works closely with you to understand your needs and deliver high-quality, scalable solutions."
        price := "Starting from $5,000"
        category := "Development"
        features := ["Web Applications", "Desktop Applications", "Mobile Apps",
          "API Development", "System Integration"]
        process :=
          [{ step := 1, title := "Discovery"
             description := "We analyze your requirements and create a detailed project plan." },
           { step := 2, title := "Design"
             description := "We create wireframes and design mockups for your approval." },
           { step := 3, title := "Development"
             description := "Our team develops your solution using agile methodologies." },
           { step := 4, title := "Deployment"
             description := "We deploy your solution and provide ongoing support." }]
        technologies := ["React", "Node.js", "Python", "PostgreSQL", "MongoDB", "AWS"]
        icon := "code"
        color := "blue"
        createdAt := "2024-01-01T00:00:00.000Z"
        updatedAt := "2024-01-15T10:30:00.000Z" } }

/-- Erase the only identifier-dependent field of the get-by-id payload. -/
def stripId (d : ServiceDetail) : ServiceDetail :=
  { d with id := none }

/-- One entry of the per-category mock table in
`GET /api/services/category/:category`. -/
structure CategoryService where
  id : Nat
  name : String
  description : String
  price : String
  category : String
deriving DecidableEq

/-- The `servicesByCategory` object literal, as a function of the
lower-cased lookup key. -/
def servicesByCategory (key : String) : List CategoryService :=
  if key = "development" then
    [{ id := 1, name := "Custom Software Development"
       description := "Tailored software solutions designed to meet your specific business requirements."
       price := "Starting from $5,000", category := "Development" }]
  else if key = "data" then
    [{ id := 2, name := "Database Management"
       description := "Comprehensive database solutions with advanced analytics."
       price := "Starting from $3,000", category := "Data" }]
  else if key = "integration" then
    [{ id := 3, name := "System Integration"
       description := "Seamless integration of existing systems and third-party applications."
       price := "Starting from $4,000", category := "Integration" }]
  else if key = "security" then
    [{ id := 4, name := "User Management Systems"
       description := "Comprehensive user management and access control systems."
       price := "Starting from $2,500", category := "Security" },
     { id := 6, name := "Security Solutions"
       description := "Enterprise-grade security solutions with encryption."
       price := "Starting from $4,500", category := "Security" }]
  else if key = "analytics" then
    [{ id := 5, name := "Analytics & Reporting"
       description := "Advanced analytics and real-time reporting solutions."
       price := "Starting from $3,500", category := "Analytics" }]
  else []

/-- The keys of the `servicesByCategory` object literal. -/
def categoryKeys : List String :=
  ["development", "data", "integration", "security", "analytics"]

/-- Shape of the `GET /api/services/category/:category` response. -/
structure CategoryResponse where
  status : Nat
  headers : List (String × String)
  message : String
  data : List CategoryService

/-- The `GET /api/services/category/:category` handler:
`servicesByCategory[category.toLowerCase()] || []`, always status 200,
and no handler-set response headers. -/
def getServicesByCategory (category : String) : CategoryResponse :=
  { status := 200
    headers := []
    message := "Services retrieved successfully"
    data := servicesByCategory (toLowerAscii category) }

/-- The fields of the `POST /api/ai/software-analysis` JSON body that the
validation consults (string-valued; `none` models an absent field). -/
structure AnalysisBody where
  software_id : Option String
  analysis_type : Option String
  ai_model : Option String

/-- The fixed enumeration of supported analysis types. -/
def supportedAnalysisTypes : List String :=
  ["performance", "security", "optimization", "usage", "compatibility", "scalability"]

/-- The fixed enumeration of supported AI models declared by the handler. -/
def supportedModels : List String :=
  ["gpt-4", "claude-3", "gemini-pro", "llama-2", "custom"]

/-- Shape of the `POST /api/ai/software-analysis` response; optional
fields are present only on the branch that sets them. -/
structure AnalysisResponse where
  status : Nat
  error : Option String
  message : String
  supportedTypes : Option (List String)
  required : Option (List String)
  software_id : Option String
  analysis_type : Option String
  ai_model : Option String

/-- Whether the body carries an `analysis_type` drawn from the supported
enumeration. -/
def recognizedAnalysisType (b : AnalysisBody) : Bool :=
  match b.analysis_type with
  | some t => supportedAnalysisTypes.contains t
  | none => false

/-- The `POST /api/ai/software-analysis` handler: rejects with 400 when
`software_id` or `analysis_type` is falsy or the analysis type is not in
the supported enumeration; otherwise answers 200 echoing the inputs with
`ai_model` defaulted to `gpt-4`. -/
def softwareAnalysis (b : AnalysisBody) : AnalysisResponse :=
  if !(truthy b.software_id) || !(truthy b.analysis_type)
      || !(recognizedAnalysisType b) then
    { status := 400
      error := some "Invalid parameters"
      message := "Missing required parameters or unsupported analysis type"
      supportedTypes := some supportedAnalysisTypes
      required := some ["software_id", "analysis_type"]
      software_id := none
      analysis_type := none
      ai_model := none }
  else
    { status := 200
      error := none
      message := ""
      supportedTypes := none
      required := none
      software_id := b.software_id
      analysis_type := b.analysis_type
      ai_model := some (jsOrStr b.ai_model "gpt-4") }

/-- The slice of a JavaScript error object read by the terminal
error-handling middleware. -/
structure ErrObj where
  status : Option Nat
  message : String
  name : Option String
  stack : String

/-- The JSON envelope produced by the error-handling middleware. -/
structure ErrorResponse where
  status : Nat
  error : String
  message : String
  code : String
  requestId : String
  retryable : Bool
  suggestedAction : String
  errorType : String
  stack : Option String

/-- The terminal error-handling middleware: status `err.status || 500`
(a missing or zero/falsy declared status becomes 500), a generic message
in production, and the stack attached only when `NODE_ENV` is
`development`; `env` models `process.env.NODE_ENV`. -/
def errorHandler (env : Option String) (e : ErrObj) (reqId : String) : ErrorResponse :=
  let retry : Bool :=
    match e.status with
    | some s => decide (500 ≤ s)
    | none => false
  { status :=
      match e.status with
      | some s => if s = 0 then 500 else s
      | none => 500
    error := "Internal Server Error"
    message := if env = some "production" then "Something went wrong" else e.message
    code := "INTERNAL_ERROR"
    requestId := reqId
    retryable := retry
    suggestedAction := if retry then "retry_later" else "check_input"
    errorType := jsOrStr e.name "UnknownError"
    stack := if env = some "development" then some e.stack else none }

/-- The metadata middleware echoes exactly the request identifier it is
given in the `X-Request-ID` response header. -/
theorem lookup_xRequestId_globalHeaders (rid : String) :
    List.lookup "X-Request-ID" (globalHeaders rid) = some rid := rfl

/-- A generated request identifier always contains the literal `-`
separator and hence is never the empty string. -/
theorem generateRequestId_ne_empty (r : String) (t : Nat) :
    generateRequestId r t ≠ "" := by
  intro h
  have hlen := congrArg String.length h
  simp only [generateRequestId, String.length_append] at hlen
  have h1 : ("-" : String).length = 1 := rfl
  have h2 : ("" : String).length = 0 := rfl
  omega

/-- C1 counterexample: a request tagged as AI-platform traffic (an
`x-ai-platform` header is present) aimed at `/api/ai/software-analysis` is
nevertheless counted by the standard `/api` limiter, whose configuration
has no `skip` predicate; its per-client counter advances. -/
theorem c1_standard_limiter_counts_ai_tagged_cex :
    isAIPlatform aiTaggedRequest = true ∧
    limiterCounts standardLimiter aiTaggedRequest = true ∧
    limiterStep standardLimiter aiTaggedRequest 0 = (1, true) := by decide

/-- C1 (amended): for every request identified as AI-platform traffic, the
`skip` predicate sits on the AI limiter, so the higher-ceiling AI limiter
neither counts nor rejects the request, while the standard `/api` limiter
still counts it (and enforces its 1000-request ceiling) whenever the
request path is under `/api`. -/
theorem c1_ai_traffic_skips_ai_limiter_not_standard (req : Request)
    (h : isAIPlatform req = true) (n : Nat) :
    limiterCounts aiLimiter req = false ∧
    limiterStep aiLimiter req n = (n, true) ∧
    (mountMatches "/api" req.path = true →
      limiterCounts standardLimiter req = true ∧
      limiterStep standardLimiter req n = (n + 1, decide (n + 1 ≤ 1000))) := by
  have hai : limiterCounts aiLimiter req = false := by
    simp [limiterCounts, aiLimiter, h]
  refine ⟨hai, by simp [limiterStep, hai], ?_⟩
  intro hm
  have hstd : limiterCounts standardLimiter req = true := by
    simp [limiterCounts, standardLimiter, hm]
  have hstep : limiterStep standardLimiter req n = (n + 1, decide (n + 1 ≤ 1000)) := by
    unfold limiterStep
    rw [if_pos hstd]
    rfl
  exact ⟨hstd, hstep⟩

/-- C1 witness: the concrete AI-tagged request instantiates the amended
theorem. -/
theorem c1_witness :
    limiterCounts aiLimiter aiTaggedRequest = false ∧
    limiterCounts standardLimiter aiTaggedRequest = true := by
  have h := c1_ai_traffic_skips_ai_limiter_not_standard aiTaggedRequest (by decide) 0
  exact ⟨h.1, (h.2.2 (by decide)).1⟩

/-- C2 counterexample: when the inbound `x-request-id` header is supplied
with the empty-string value, the middleware does not keep it — the empty
string is falsy under `||`, so a generated identifier is used instead. -/
theorem c2_empty_header_cex :
    requestIdOf (some "") "abc" 0 = "abc-0" ∧
    (requestIdOf (some "") "abc" 0 == "") = false := by decide

/-- C2 (amended): every response echoes in its `X-Request-ID` header the
value of the inbound `x-request-id` header whenever a non-empty one was
supplied; when the header is missing or empty, the echoed identifier is
the generated one, which is a non-empty string. -/
theorem c2_request_id_propagation (hdr : Option String) (r : String) (t : Nat)
    (v : String) :
    (hdr = some v → v ≠ "" →
      List.lookup "X-Request-ID" (globalHeaders (requestIdOf hdr r t)) = some v) ∧
    ((hdr = none ∨ hdr = some "") →
      List.lookup "X-Request-ID" (globalHeaders (requestIdOf hdr r t)) =
        some (generateRequestId r t) ∧
      generateRequestId r t ≠ "") := by
  constructor
  · rintro rfl hv
    have hid : requestIdOf (some v) r t = v := by simp [requestIdOf, hv]
    rw [hid]
    exact lookup_xRequestId_globalHeaders v
  · rintro (rfl | rfl)
    · exact ⟨lookup_xRequestId_globalHeaders _, generateRequestId_ne_empty r t⟩
    · exact ⟨lookup_xRequestId_globalHeaders _, generateRequestId_ne_empty r t⟩

/-- C2 witness: a supplied non-empty header is echoed verbatim; a missing
header yields the generated, non-empty identifier. -/
theorem c2_witness :
    List.lookup "X-Request-ID" (globalHeaders (requestIdOf (some "abc123") "r" 5)) =
      some "abc123" ∧
    List.lookup "X-Request-ID" (globalHeaders (requestIdOf none "r" 5)) =
      some (generateRequestId "r" 5) ∧
    generateRequestId "r" 5 ≠ "" := by
  have h1 := (c2_request_id_propagation (some "abc123") "r" 5 "abc123").1 rfl (by decide)
  have h2 := (c2_request_id_propagation none "r" 5 "x").2 (Or.inl rfl)
  exact ⟨h1, h2.1, h2.2⟩

/-- C3: every `POST /api/ai/software-analysis` body lacking a recognized
`analysis_type` (missing, empty, or outside the six supported values) is
rejected with HTTP 400, error `Invalid parameters`, and a
`supportedTypes` field listing the full fixed enumeration. -/
theorem c3_invalid_analysis_type_rejected (b : AnalysisBody)
    (h : recognizedAnalysisType b = false) :
    (softwareAnalysis b).status = 400 ∧
    (softwareAnalysis b).error = some "Invalid parameters" ∧
    (softwareAnalysis b).supportedTypes =
      some ["performance", "security", "optimization", "usage",
        "compatibility", "scalability"] := by
  simp [softwareAnalysis, h, supportedAnalysisTypes]

/-- C3 witness: the empty body carries no recognized analysis type and is
answered with 400 `Invalid parameters`. -/
theorem c3_witness :
    recognizedAnalysisType
      { software_id := none, analysis_type := none, ai_model := none } = false ∧
    (softwareAnalysis
      { software_id := none, analysis_type := none, ai_model := none }).status = 400 ∧
    (softwareAnalysis
      { software_id := none, analysis_type := none, ai_model := none }).error =
      some "Invalid parameters" := by
  have h := c3_invalid_analysis_type_rejected
    { software_id := none, analysis_type := none, ai_model := none } rfl
  exact ⟨rfl, h.1, h.2.1⟩

/-- C4: a `GET /api/services/:id` request whose identifier segment does
not parse as an integer still succeeds: HTTP 200 with a synthetic object
whose `id` field is the `NaN` parse result (modelled by `none`). -/
theorem c4_nonnumeric_id_returns_nan_object (s : String)
    (h : parseIntJS s = none) :
    (getServiceById s).status = 200 ∧ (getServiceById s).data.id = none :=
  ⟨rfl, by simp [getServiceById, h]⟩

/-- C4 witness: the non-numeric segment `abc` yields 200 with a `NaN`
identifier. -/
theorem c4_witness :
    parseIntJS "abc" = none ∧
    (getServiceById "abc").status = 200 ∧
    (getServiceById "abc").data.id = none :=
  ⟨by decide,
   (c4_nonnumeric_id_returns_nan_object "abc" (by decide)).1,
   (c4_nonnumeric_id_returns_nan_object "abc" (by decide)).2⟩

/-- C5: for every category segment, `GET /api/services/category/:category`
answers 200, every returned entry's category matches the segment
case-insensitively, and a segment whose lower-casing is not a key of the
mapping yields the empty collection. -/
theorem c5_category_lookup_case_insensitive (c : String) :
    (getServicesByCategory c).status = 200 ∧
    (∀ e, e ∈ (getServicesByCategory c).data →
      toLowerAscii e.category = toLowerAscii c) ∧
    (toLowerAscii c ∉ categoryKeys → (getServicesByCategory c).data = []) := by
  refine ⟨rfl, ?_, ?_⟩
  · intro e he
    simp only [getServicesByCategory, servicesByCategory] at he
    by_cases h1 : toLowerAscii c = "development"
    · rw [if_pos h1] at he
      simp only [List.mem_singleton] at he
      subst he
      rw [h1]; decide
    rw [if_neg h1] at he
    by_cases h2 : toLowerAscii c = "data"
    · rw [if_pos h2] at he
      simp only [List.mem_singleton] at he
      subst he
      rw [h2]; decide
    rw [if_neg h2] at he
    by_cases h3 : toLowerAscii c = "integration"
    · rw [if_pos h3] at he
      simp only [List.mem_singleton] at he
      subst he
      rw [h3]; decide
    rw [if_neg h3] at he
    by_cases h4 : toLowerAscii c = "security"
    · rw [if_pos h4] at he
      simp only [List.mem_cons, List.not_mem_nil, or_false] at he
      rcases he with he | he <;> (subst he; rw [h4]; decide)
    rw [if_neg h4] at he
    by_cases h5 : toLowerAscii c = "analytics"
    · rw [if_pos h5] at he
      simp only [List.mem_singleton] at he
      subst he
      rw [h5]; decide
    rw [if_neg h5] at he
    exact absurd he (List.not_mem_nil e)
  · intro hnot
    simp only [categoryKeys, List.mem_cons, List.not_mem_nil, or_false,
      not_or] at hnot
    obtain ⟨h1, h2, h3, h4, h5⟩ := hnot
    simp only [getServicesByCategory, servicesByCategory,
      if_neg h1, if_neg h2, if_neg h3, if_neg h4, if_neg h5]

/-- C5 witness: the upper-cased segment `SECURITY` returns entries whose
category matches case-insensitively, and an unknown segment returns the
empty collection with status 200. -/
theorem c5_witness :
    (getServicesByCategory "SECURITY").status = 200 ∧
    ((getServicesByCategory "SECURITY").data.all
      (fun e => toLowerAscii e.category == toLowerAscii "SECURITY")) = true ∧
    (getServicesByCategory "unknown-category").data = [] := by
  have hs := c5_category_lookup_case_insensitive "SECURITY"
  have hu := c5_category_lookup_case_insensitive "unknown-category"
  refine ⟨hs.1, ?_, hu.2.2 (by decide)⟩
  rw [List.all_eq_true]
  intro e he
  exact beq_iff_eq.mpr (hs.2.1 e he)

/-- C6: `GET /api/services` answers 200 with exactly 10 catalog entries,
`total_services` equal to 10, and a duplicate-free category list. -/
theorem c6_services_listing_shape (now : Nat) (rand : String) :
    (getAllServices now rand).status = 200 ∧
    (getAllServices now rand).data.length = 10 ∧
    (getAllServices now rand).totalServices = 10 ∧
    (getAllServices now rand).categories.Nodup := by
  refine ⟨rfl, rfl, rfl, ?_⟩
  dsimp only [getAllServices]
  decide

/-- C7: catalog listing is idempotent — any two invocations of the
`GET /api/services` handler return the same identifiers and the same
categories, whatever the timestamps and random suffixes were. -/
theorem c7_catalog_listing_idempotent (t1 t2 : Nat) (r1 r2 : String) :
    (getAllServices t1 r1).data.map (fun s => s.id) =
      (getAllServices t2 r2).data.map (fun s => s.id) ∧
    (getAllServices t1 r1).categories = (getAllServices t2 r2).categories ∧
    (getAllServices t1 r1).data.map (fun s => s.category) =
      (getAllServices t2 r2).data.map (fun s => s.category) :=
  ⟨rfl, rfl, rfl⟩

/-- C8 counterexample: a failure declaring `status` equal to `0` does not
see its declared status echoed — `err.status || 500` treats the falsy `0`
as undeclared, so the response status is 500, not 0. -/
theorem c8_zero_status_cex :
    (errorHandler none
      { status := some 0, message := "boom", name := none, stack := "trace" }
      "r1").status = 500 ∧
    ((errorHandler none
      { status := some 0, message := "boom", name := none, stack := "trace" }
      "r1").status == 0) = false := by decide

/-- C8 (amended): the error-handling middleware answers with the failure's
declared status whenever one is declared and non-zero, and defaults to 500
when none is declared (or the declared value is the falsy `0`); the stack
trace appears in the body only under the `development` configuration
(hence never in production), and production substitutes the generic
`Something went wrong` message with no stack. -/
theorem c8_error_responder_status_and_detail (env : Option String)
    (e : ErrObj) (rid : String) :
    (e.status = none → (errorHandler env e rid).status = 500) ∧
    (∀ s, e.status = some s → s ≠ 0 → (errorHandler env e rid).status = s) ∧
    ((errorHandler env e rid).stack ≠ none →
      env = some "development" ∧ env ≠ some "production") ∧
    (env = some "production" →
      (errorHandler env e rid).message = "Something went wrong" ∧
      (errorHandler env e rid).stack = none) := by
  refine ⟨?_, ?_, ?_, ?_⟩
  · intro h
    simp [errorHandler, h]
  · intro s hs hs0
    simp [errorHandler, hs, hs0]
  · intro h
    by_cases hd : env = some "development"
    · exact ⟨hd, by rw [hd]; decide⟩
    · exact absurd (by simp [errorHandler, hd]) h
  · intro hp
    have hd : ¬env = some "development" := by rw [hp]; decide
    exact ⟨by simp [errorHandler, hp], by simp [errorHandler, hd]⟩

/-- C8 witness: a production-mode failure with declared status 404 is
echoed with that status, the generic message, and no stack; an
undeclared status defaults to 500. -/
theorem c8_witness :
    (errorHandler (some "production")
      { status := some 404, message := "x", name := none, stack := "st" }
      "r2").status = 404 ∧
    (errorHandler (some "production")
      { status := some 404, message := "x", name := none, stack := "st" }
      "r2").message = "Something went wrong" ∧
    (errorHandler (some "production")
      { status := some 404, message := "x", name := none, stack := "st" }
      "r2").stack = none ∧
    (errorHandler none
      { status := none, message := "y", name := none, stack := "st" }
      "r3").status = 500 := by
  have h1 := c8_error_responder_status_and_detail (some "production")
    { status := some 404, message := "x", name := none, stack := "st" } "r2"
  have h2 := c8_error_responder_status_and_detail none
    { status := none, message := "y", name := none, stack := "st" } "r3"
  exact ⟨h1.2.1 404 rfl (by decide), (h1.2.2.2 rfl).1, (h1.2.2.2 rfl).2,
    h2.1 rfl⟩

/-- C9 counterexample: the response of `GET /api/services/1` carries no
`Cache-Control` header at all — neither the get-by-id handler nor the
global middleware sets one — contradicting the claim that every
catalog-read endpoint sends the no-cache directive set. -/
theorem c9_missing_cache_header_cex :
    List.lookup "Cache-Control" (getServiceById "1").headers = none ∧
    List.lookup "Cache-Control"
      (getServicesByCategory "security").headers = none := by decide

/-- C9 (amended): the `Cache-Control: no-cache, no-store, must-revalidate,
private` header is set by the catalog list endpoint `GET /api/services`
only; the get-by-id and get-by-category handlers set no such header, and
the globally applied middleware headers do not include one either. -/
theorem c9_cache_headers_on_list_endpoint_only (now : Nat)
    (rand s c rid : String) :
    List.lookup "Cache-Control" (getAllServices now rand).headers =
      some "no-cache, no-store, must-revalidate, private" ∧
    List.lookup "Cache-Control" (getServiceById s).headers = none ∧
    List.lookup "Cache-Control" (getServicesByCategory c).headers = none ∧
    List.lookup "Cache-Control" (globalHeaders rid) = none :=
  ⟨rfl, rfl, rfl, rfl⟩

/-- C10: the bodies of two `GET /api/services/:id` responses differ at
most in the `data.id` field, which is the integer parse of the segment;
every other field is a fixed constant, and the constant body does not
describe the catalog — catalog entry 2 is named
`Database Management & Analytics` while the body for segment `2` carries
a different name. -/
theorem c10_id_handler_constant_body (s1 s2 : String) :
    stripId (getServiceById s1).data = stripId (getServiceById s2).data ∧
    (getServiceById s1).data.id = parseIntJS s1 ∧
    (services.find? (fun e => e.id == 2)).map (fun e => e.name) =
      some "Database Management & Analytics" ∧
    (getServiceById s1).data.name ≠ "Database Management & Analytics" := by
  refine ⟨rfl, rfl, rfl, ?_⟩
  have hname : (getServiceById s1).data.name = "Custom Software Development" := rfl
  rw [hname]
  decide

/-- C10 witness: concrete segments instantiate the constancy statement. -/
theorem c10_witness :
    stripId (getServiceById "7").data = stripId (getServiceById "xyz").data ∧
    (getServiceById "7").data.id = parseIntJS "7" ∧
    (getServiceById "7").data.name ≠ "Database Management & Analytics" :=
  ⟨(c10_id_handler_constant_body "7" "xyz").1,
   (c10_id_handler_constant_body "7" "xyz").2.1,
   (c10_id_handler_constant_body "7" "xyz").2.2.2⟩
